import Mathlib

/-!
Verification development for the STR_CP2_Sistema_de_Dados_Robusto firmware
(two source variants: `STR_CP2_Sistema_de_Dados_Robusto.c` and
`hello_world_main.c`).

The intertask coordination logic is shallowly embedded: each FreeRTOS task's
loop body becomes a step function on explicit state, with the environment
outcomes (allocation success, channel contents seen by the consumer) passed as
inputs.  The bounded channel (`fila`, a FreeRTOS queue) and the flag set
(`event_supervisor`, a FreeRTOS event group) are library primitives whose
implementation is not part of this repository, so they are modelled from the
specification's description of their semantics.
-/

namespace STRCP2

/-- Modelled from the spec: the bounded FIFO `Channel` (the FreeRTOS queue
`fila`, whose implementation is not in this repository).  Capacity is fixed at
construction; contents are an ordered list of integer records, oldest first. -/
structure Channel where
  capacity : Nat
  items : List Int
deriving DecidableEq

namespace Channel

/-- Modelled from the spec: channel construction (`xQueueCreate(C, sizeof(int))`)
yields an empty channel of capacity `C`. -/
def new (c : Nat) : Channel := ⟨c, []⟩

/-- Modelled from the spec: `try_send` (`xQueueSend(fila, &value, 0)`) is
non-blocking; it returns false and leaves the state unchanged if the occupied
count equals the capacity, else appends at the tail and returns true. -/
def try_send (ch : Channel) (v : Int) : Bool × Channel :=
  if ch.items.length = ch.capacity then (false, ch)
  else (true, { ch with items := ch.items ++ [v] })

/-- Modelled from the spec: `try_receive` (`xQueueReceive(fila, ptr, 0)`) is
non-blocking; it returns no value on an empty channel, else removes and returns
the oldest record. -/
def try_receive (ch : Channel) : Option Int × Channel :=
  match ch.items with
  | [] => (none, ch)
  | x :: xs => (some x, { ch with items := xs })

/-- Modelled from the spec: `reset` (`xQueueReset(fila)`) discards all
occupants immediately and unconditionally. -/
def reset (ch : Channel) : Channel := { ch with items := [] }

/-- Occupied count of a channel. -/
def occupied (ch : Channel) : Nat := ch.items.length

end Channel

/-- A generic channel operation, for stating the occupancy invariant over
arbitrary operation sequences. -/
inductive ChanOp where
  | send (v : Int)
  | receive
  | reset
deriving DecidableEq

/-- Apply one channel operation, keeping only the resulting channel state. -/
def Channel.applyOp (ch : Channel) : ChanOp → Channel
  | .send v => (ch.try_send v).2
  | .receive => (ch.try_receive).2
  | .reset => ch.reset

/-- Apply a sequence of channel operations from left to right. -/
def Channel.applyOps (ch : Channel) (ops : List ChanOp) : Channel :=
  ops.foldl Channel.applyOp ch

/-- Event bit `BIT_TASK1_OK` (`1 << 0`). -/
def BIT_TASK1_OK : Nat := 1
/-- Event bit `BIT_TASK1_FAIL` (`1 << 1`). -/
def BIT_TASK1_FAIL : Nat := 2
/-- Event bit `BIT_TASK2_OK` (`1 << 2`). -/
def BIT_TASK2_OK : Nat := 4
/-- Event bit `BIT_TASK2_TIMEOUT` (`1 << 3`). -/
def BIT_TASK2_TIMEOUT : Nat := 8
/-- Event bit `BIT_TASK2_RESET` (`1 << 4`). -/
def BIT_TASK2_RESET : Nat := 16
/-- Event bit `BIT_TASK2_RESTART` (`1 << 5`). -/
def BIT_TASK2_RESTART : Nat := 32

namespace FlagSet

/-- Modelled from the spec: `FlagSet.set` (`xEventGroupSetBits`) merges the
given bits into the shared mask via bitwise OR. -/
def set (s flags : Nat) : Nat := s ||| flags

/-- Clear from `s` exactly the bits of `b` (per-bit: keep a bit of `s` unless
it is set in `b`).  Since `s ^^^ (s &&& b)` flips exactly the bits set in both,
this clears exactly the bits of `b` that were set and touches nothing else. -/
def clearBits (s b : Nat) : Nat := s ^^^ (s &&& b)

/-- Modelled from the spec: `wait_any` at `timeout = 0`
(`xEventGroupWaitBits(group, mask, clear, pdFALSE, 0)`): a single non-blocking
poll that returns the subset of `mask` currently set; when `clearOnExit` is
true, exactly the returned bits are cleared atomically with the read. -/
def wait_any (s mask : Nat) (clearOnExit : Bool) : Nat × Nat :=
  let ret := s &&& mask
  (ret, if clearOnExit then clearBits s ret else s)

end FlagSet

/-- The channel created by `app_main` in the `STR_CP2` variant:
`xQueueCreate(10, sizeof(int))`. -/
def filaSTR : Channel := Channel.new 10

/-- The channel created by `app_main` in the `hello_world` variant:
`xQueueCreate(1, sizeof(int))`. -/
def filaHello : Channel := Channel.new 1

/-- Observable effects of one producer (`Task1`) loop iteration: the value
counter after the cycle, the resulting channel, the event bits set, whether the
send succeeded, whether the watchdog was refreshed, and the sleep duration. -/
structure Task1Out where
  value : Int
  channel : Channel
  bits : Nat
  sendOk : Bool
  wdtRefreshed : Bool
  sleepMs : Nat
deriving DecidableEq

/-- One iteration of `Task1`'s loop (identical in both variants): attempt a
non-blocking send of `value`; on failure set `BIT_TASK1_FAIL`, on success set
`BIT_TASK1_OK`; then `value++`, refresh the watchdog, and sleep 1000 ms. -/
def task1Step (value : Int) (fila : Channel) : Task1Out :=
  let r := fila.try_send value
  { value := value + 1
    channel := r.2
    bits := if r.1 = false then BIT_TASK1_FAIL else BIT_TASK1_OK
    sendOk := r.1
    wdtRefreshed := true
    sleepMs := 1000 }

/-- The sequence of values the producer attempts to send over `n` cycles,
starting from counter `v` and channel `fila`. -/
def task1Attempts : Nat → Int → Channel → List Int
  | 0, _, _ => []
  | n + 1, v, fila =>
    let o := task1Step v fila
    v :: task1Attempts n o.value o.channel

/-- Observable effects of one consumer (`Task2`) loop iteration: the miss
counter after the cycle, the resulting channel, the event bits set, whether the
channel was reset, whether `esp_restart` was invoked, whether the watchdog was
refreshed, the sleep duration of the cycle, and whether an allocation failure
was logged. -/
structure Task2Out where
  timeout : Int
  channel : Channel
  bits : Nat
  resetChannel : Bool
  restart : Bool
  wdtRefreshed : Bool
  sleepMs : Nat
  allocFailLogged : Bool
deriving DecidableEq

/-- One iteration of `Task2`'s loop in the `STR_CP2` variant.  `allocOk` is
the outcome of `malloc`: on failure the task logs, sleeps 500 ms and
`continue`s (skipping the end-of-loop watchdog refresh).  Otherwise it
attempts a non-blocking receive: success resets `timeout` to 0 and sets
`BIT_TASK2_OK`; failure increments `timeout` and escalates at the exact values
10 (`BIT_TASK2_TIMEOUT`), 20 (`xQueueReset`, `BIT_TASK2_RESET`, and — in this
variant — `timeout = 0`), and 30 (`BIT_TASK2_RESTART`, 100 ms delay,
`esp_restart`). -/
def task2StepSTR (allocOk : Bool) (timeout : Int) (fila : Channel) : Task2Out :=
  if allocOk = false then
    { timeout := timeout, channel := fila, bits := 0, resetChannel := false,
      restart := false, wdtRefreshed := false, sleepMs := 500,
      allocFailLogged := true }
  else
    match fila.try_receive with
    | (some _, fila2) =>
      { timeout := 0, channel := fila2, bits := BIT_TASK2_OK,
        resetChannel := false, restart := false, wdtRefreshed := true,
        sleepMs := 500, allocFailLogged := false }
    | (none, fila2) =>
      let t := timeout + 1
      if t = 10 then
        { timeout := t, channel := fila2, bits := BIT_TASK2_TIMEOUT,
          resetChannel := false, restart := false, wdtRefreshed := true,
          sleepMs := 500, allocFailLogged := false }
      else if t = 20 then
        { timeout := 0, channel := fila2.reset, bits := BIT_TASK2_RESET,
          resetChannel := true, restart := false, wdtRefreshed := true,
          sleepMs := 500, allocFailLogged := false }
      else if t = 30 then
        { timeout := t, channel := fila2, bits := BIT_TASK2_RESTART,
          resetChannel := false, restart := true, wdtRefreshed := false,
          sleepMs := 100, allocFailLogged := false }
      else
        { timeout := t, channel := fila2, bits := 0, resetChannel := false,
          restart := false, wdtRefreshed := true, sleepMs := 500,
          allocFailLogged := false }

/-- One iteration of `Task2`'s loop in the `hello_world` variant.  Identical
to the `STR_CP2` variant except that the `timeout == 20` branch does not reset
the counter to 0, and the `timeout == 30` branch calls `esp_restart` with no
preceding delay. -/
def task2StepHello (allocOk : Bool) (timeout : Int) (fila : Channel) : Task2Out :=
  if allocOk = false then
    { timeout := timeout, channel := fila, bits := 0, resetChannel := false,
      restart := false, wdtRefreshed := false, sleepMs := 500,
      allocFailLogged := true }
  else
    match fila.try_receive with
    | (some _, fila2) =>
      { timeout := 0, channel := fila2, bits := BIT_TASK2_OK,
        resetChannel := false, restart := false, wdtRefreshed := true,
        sleepMs := 500, allocFailLogged := false }
    | (none, fila2) =>
      let t := timeout + 1
      if t = 10 then
        { timeout := t, channel := fila2, bits := BIT_TASK2_TIMEOUT,
          resetChannel := false, restart := false, wdtRefreshed := true,
          sleepMs := 500, allocFailLogged := false }
      else if t = 20 then
        { timeout := t, channel := fila2.reset, bits := BIT_TASK2_RESET,
          resetChannel := true, restart := false, wdtRefreshed := true,
          sleepMs := 500, allocFailLogged := false }
      else if t = 30 then
        { timeout := t, channel := fila2, bits := BIT_TASK2_RESTART,
          resetChannel := false, restart := true, wdtRefreshed := false,
          sleepMs := 0, allocFailLogged := false }
      else
        { timeout := t, channel := fila2, bits := 0, resetChannel := false,
          restart := false, wdtRefreshed := true, sleepMs := 500,
          allocFailLogged := false }

/-- Run the `STR_CP2` consumer over a list of per-cycle environment inputs
(allocation outcome, channel contents offered to `xQueueReceive` that cycle),
threading the miss counter.  The run stops at a cycle that invokes
`esp_restart`, since that call does not return. -/
def task2RunSTR : List (Bool × Channel) → Int → List Task2Out
  | [], _ => []
  | (a, ch) :: rest, t =>
    let o := task2StepSTR a t ch
    if o.restart then [o] else o :: task2RunSTR rest o.timeout

/-- Run the `hello_world` consumer over a list of per-cycle environment
inputs, threading the miss counter; stops at a cycle invoking `esp_restart`. -/
def task2RunHello : List (Bool × Channel) → Int → List Task2Out
  | [], _ => []
  | (a, ch) :: rest, t =>
    let o := task2StepHello a t ch
    if o.restart then [o] else o :: task2RunHello rest o.timeout

/-- The categorized supervisor status lines `Task3` can emit, one constructor
per flag it reports on. -/
inductive SupLine where
  | task1_ok
  | task1_fail
  | task2_ok
  | task2_timeout
  | task2_reset
  | task2_restart
deriving DecidableEq

/-- The mask `Task3` polls: all six status bits. -/
def supervisorMask : Nat :=
  BIT_TASK1_OK ||| BIT_TASK1_FAIL |||
  BIT_TASK2_OK ||| BIT_TASK2_TIMEOUT ||| BIT_TASK2_RESET ||| BIT_TASK2_RESTART

/-- The status lines `Task3` emits for a given polled bit value: one `if (bits
& BIT) printf(...)` per flag, in source order (identical in both variants). -/
def task3Lines (bits : Nat) : List SupLine :=
  (if bits &&& BIT_TASK1_OK ≠ 0 then [SupLine.task1_ok] else []) ++
  (if bits &&& BIT_TASK1_FAIL ≠ 0 then [SupLine.task1_fail] else []) ++
  (if bits &&& BIT_TASK2_OK ≠ 0 then [SupLine.task2_ok] else []) ++
  (if bits &&& BIT_TASK2_TIMEOUT ≠ 0 then [SupLine.task2_timeout] else []) ++
  (if bits &&& BIT_TASK2_RESET ≠ 0 then [SupLine.task2_reset] else []) ++
  (if bits &&& BIT_TASK2_RESTART ≠ 0 then [SupLine.task2_restart] else [])

/-- One iteration of `Task3`'s loop: poll all six bits with clear-on-exit and
zero timeout, then emit one line per flag present in the returned bits.
Returns the emitted lines and the flag state after the poll. -/
def task3Step (flags : Nat) : List SupLine × Nat :=
  let r := FlagSet.wait_any flags supervisorMask true
  (task3Lines r.1, r.2)

end STRCP2

namespace STRCP2

/-- C1 counterexample: in the `STR_CP2` variant, with the channel permanently
empty and starting from a zero miss counter, cycle 30 of the consumer emits
`BIT_TASK2_TIMEOUT` (not `BIT_TASK2_RESTART`) and no cycle of the 30 invokes
the process restart — refuting the claimed emission at cycle 30. -/
theorem C1_str_cycle30_no_restart :
    ((task2RunSTR (List.replicate 30 (true, filaSTR)) 0).map Task2Out.bits).getLast? =
      some BIT_TASK2_TIMEOUT ∧
    (task2RunSTR (List.replicate 30 (true, filaSTR)) 0).map Task2Out.restart =
      List.replicate 30 false ∧
    BIT_TASK2_TIMEOUT ≠ BIT_TASK2_RESTART := by
  decide

/-- C1 (amended): with the channel permanently empty, over 30 consecutive
consumer cycles from `miss_counter = 0`, the `hello_world` variant sets
`BIT_TASK2_TIMEOUT` exactly at cycle 10, `BIT_TASK2_RESET` with a channel
reset exactly at cycle 20, and `BIT_TASK2_RESTART` with the process restart
exactly at cycle 30, and no escalation flag at any other cycle; the `STR_CP2`
variant (which zeroes the counter at threshold 20) instead re-emits
`BIT_TASK2_TIMEOUT` at cycle 30 and never restarts. -/
theorem C1_empty_channel_escalation_trace :
    (task2RunHello (List.replicate 30 (true, filaHello)) 0).map Task2Out.bits =
      List.replicate 9 0 ++ [BIT_TASK2_TIMEOUT] ++ List.replicate 9 0 ++
        [BIT_TASK2_RESET] ++ List.replicate 9 0 ++ [BIT_TASK2_RESTART] ∧
    (task2RunHello (List.replicate 30 (true, filaHello)) 0).map Task2Out.resetChannel =
      List.replicate 19 false ++ [true] ++ List.replicate 10 false ∧
    (task2RunHello (List.replicate 30 (true, filaHello)) 0).map Task2Out.restart =
      List.replicate 29 false ++ [true] ∧
    (task2RunSTR (List.replicate 30 (true, filaSTR)) 0).map Task2Out.bits =
      List.replicate 9 0 ++ [BIT_TASK2_TIMEOUT] ++ List.replicate 9 0 ++
        [BIT_TASK2_RESET] ++ List.replicate 9 0 ++ [BIT_TASK2_TIMEOUT] ∧
    (task2RunSTR (List.replicate 30 (true, filaSTR)) 0).map Task2Out.resetChannel =
      List.replicate 19 false ++ [true] ++ List.replicate 10 false ∧
    (task2RunSTR (List.replicate 30 (true, filaSTR)) 0).map Task2Out.restart =
      List.replicate 30 false := by
  decide

/-- C2 counterexample: on an allocation-failure cycle, both consumer variants
sleep 500 ms — the same duration as the main period (shown by the adjacent
main-path cycle) rather than a distinct backoff — and do not refresh the
watchdog before that sleep. -/
theorem C2_backoff_equals_period_no_wdt :
    (task2StepSTR false 0 filaSTR).sleepMs = 500 ∧
    (task2StepSTR true 0 filaSTR).sleepMs = 500 ∧
    (task2StepSTR false 0 filaSTR).wdtRefreshed = false ∧
    (task2StepHello false 0 filaHello).sleepMs = 500 ∧
    (task2StepHello true 0 filaHello).sleepMs = 500 ∧
    (task2StepHello false 0 filaHello).wdtRefreshed = false := by
  decide

/-- C2 (amended): on every consumer cycle in which allocating the scratch slot
fails, both variants log the failure, sleep a 500 ms backoff equal to the main
500 ms period, do not refresh the watchdog on that cycle, and retry without
modifying `miss_counter`, the channel, or any event bit. -/
theorem C2_alloc_failure_cycle (t : Int) (fila : Channel) :
    task2StepSTR false t fila =
      { timeout := t, channel := fila, bits := 0, resetChannel := false,
        restart := false, wdtRefreshed := false, sleepMs := 500,
        allocFailLogged := true } ∧
    task2StepHello false t fila =
      { timeout := t, channel := fila, bits := 0, resetChannel := false,
        restart := false, wdtRefreshed := false, sleepMs := 500,
        allocFailLogged := true } := by
  constructor <;> rfl

/-- The producer's attempted-value sequence from start value `v` is the
arithmetic progression `v, v+1, ..., v+n-1`, independent of channel contents
and delivery outcomes. -/
theorem task1Attempts_eq (n : Nat) : ∀ (v : Int) (fila : Channel),
    task1Attempts n v fila = (List.range n).map (fun k : Nat => v + (k : Int)) := by
  induction n with
  | zero => intro v fila; rfl
  | succ n ih =>
    intro v fila
    have hfun : ((fun k : Nat => v + (k : Int)) ∘ Nat.succ) =
        fun k : Nat => (v + 1) + (k : Int) := by
      funext a
      simp only [Function.comp_apply]
      push_cast
      ring
    rw [List.range_succ_eq_map, List.map_cons, List.map_map, hfun]
    show v :: task1Attempts n (v + 1) (task1Step v fila).channel = _
    rw [ih]
    simp

/-- C7: on every producer cycle, for both delivery outcomes, the value counter
increments by exactly 1; hence the sequence of values the producer attempts to
send from start 0 is exactly `0, 1, 2, ...` and is strictly increasing, so no
dropped value is ever retried. -/
theorem C7_producer_value_strictly_increasing (v : Int) (fila : Channel) (n : Nat) :
    (task1Step v fila).value = v + 1 ∧
    task1Attempts n 0 fila = (List.range n).map (fun k : Nat => (k : Int)) ∧
    List.Pairwise (· < ·) (task1Attempts n 0 fila) := by
  refine ⟨rfl, ?_, ?_⟩
  · simpa using task1Attempts_eq n 0 fila
  · rw [task1Attempts_eq]
    refine List.Pairwise.map _ (fun a b hab => ?_) (List.pairwise_lt_range n)
    simpa using hab

end STRCP2

namespace STRCP2

/-- C3: in both variants, on any consumer cycle whose receive succeeds (the
channel is non-empty), the miss counter is set to 0 — for every prior value —
and `BIT_TASK2_OK` is the only event bit set, so any success from any non-FATAL
escalation state goes directly back to NORMAL. -/
theorem C3_success_resets_miss_counter (t : Int) (fila : Channel)
    (h : fila.items ≠ []) :
    (task2StepSTR true t fila).timeout = 0 ∧
    (task2StepSTR true t fila).bits = BIT_TASK2_OK ∧
    (task2StepHello true t fila).timeout = 0 ∧
    (task2StepHello true t fila).bits = BIT_TASK2_OK := by
  obtain ⟨x, xs, hx⟩ : ∃ x xs, fila.items = x :: xs := by
    cases hfi : fila.items with
    | nil => exact absurd hfi h
    | cons a l => exact ⟨a, l, rfl⟩
  simp [task2StepSTR, task2StepHello, Channel.try_receive, hx]

/-- Witness for C3 at a concrete non-empty channel and prior counter 17. -/
theorem C3_success_resets_miss_counter_witness :
    (Channel.mk 10 [7]).items ≠ [] ∧
    (task2StepSTR true 17 (Channel.mk 10 [7])).timeout = 0 ∧
    (task2StepHello true 17 (Channel.mk 10 [7])).timeout = 0 := by
  have h := C3_success_resets_miss_counter 17 (Channel.mk 10 [7]) (by decide)
  exact ⟨by decide, h.1, h.2.2.1⟩

/-- One channel operation keeps the occupancy within capacity and preserves
the capacity. -/
theorem Channel.applyOp_occupied_le (ch : Channel) (op : ChanOp)
    (h : ch.occupied ≤ ch.capacity) :
    (ch.applyOp op).occupied ≤ ch.capacity ∧
    (ch.applyOp op).capacity = ch.capacity := by
  cases op with
  | send v =>
    simp only [Channel.applyOp, Channel.try_send, Channel.occupied] at *
    split
    · exact ⟨h, rfl⟩
    · next hne => simp at hne ⊢; omega
  | receive =>
    simp only [Channel.applyOp, Channel.try_receive, Channel.occupied] at *
    cases hfi : ch.items with
    | nil => simp [hfi] at h ⊢
    | cons a l => simp [hfi] at h ⊢; omega
  | reset =>
    simp [Channel.applyOp, Channel.reset, Channel.occupied]

/-- Any sequence of channel operations keeps the occupancy within the starting
capacity bound and preserves the capacity. -/
theorem Channel.applyOps_invariant (ops : List ChanOp) : ∀ ch : Channel,
    ch.occupied ≤ ch.capacity →
    (ch.applyOps ops).occupied ≤ ch.capacity ∧
    (ch.applyOps ops).capacity = ch.capacity := by
  induction ops with
  | nil => intro ch h; exact ⟨h, rfl⟩
  | cons op rest ih =>
    intro ch h
    have h1 := Channel.applyOp_occupied_le ch op h
    have h2 := ih (ch.applyOp op) (by rw [h1.2]; exact h1.1)
    refine ⟨?_, ?_⟩
    · show (Channel.applyOps (ch.applyOp op) rest).occupied ≤ ch.capacity
      calc (Channel.applyOps (ch.applyOp op) rest).occupied
          ≤ (ch.applyOp op).capacity := h2.1
        _ = ch.capacity := h1.2
    · show (Channel.applyOps (ch.applyOp op) rest).capacity = ch.capacity
      rw [h2.2, h1.2]

/-- C4: for every sequence of `try_send`, `try_receive`, and `reset`
operations applied to a channel created with capacity `C`, the occupied count
stays within `[0, C]`. -/
theorem C4_occupancy_within_bounds (C : Nat) (ops : List ChanOp) :
    0 ≤ ((Channel.new C).applyOps ops).occupied ∧
    ((Channel.new C).applyOps ops).occupied ≤ C := by
  have h := Channel.applyOps_invariant ops (Channel.new C)
    (by simp [Channel.new, Channel.occupied])
  exact ⟨Nat.zero_le _, h.1⟩

/-- C5: `wait_any` with `clear_on_exit = true` and zero timeout returns the
subset of `mask` currently set and clears exactly the bits it returns: every
returned bit reads 0 afterwards, and every bit not returned (outside `mask`,
or in `mask` but not set at read time) is unchanged. -/
theorem C5_wait_any_clears_exactly_returned (s mask i : Nat) :
    (FlagSet.wait_any s mask true).1 = s &&& mask ∧
    ((s &&& mask).testBit i = true →
      (FlagSet.wait_any s mask true).2.testBit i = false) ∧
    ((s &&& mask).testBit i = false →
      (FlagSet.wait_any s mask true).2.testBit i = s.testBit i) := by
  have hbit : (FlagSet.wait_any s mask true).2.testBit i =
      (s.testBit i && !((s &&& mask).testBit i)) := by
    simp only [FlagSet.wait_any, FlagSet.clearBits, if_true,
      Nat.testBit_xor, Nat.testBit_land]
    cases s.testBit i <;> cases mask.testBit i <;> rfl
  refine ⟨rfl, fun h => ?_, fun h => ?_⟩
  · rw [hbit, h]; simp
  · rw [hbit, h]; simp

/-- Witness for C5 at `s = 43`, `mask = 14`: bit 1 is returned and cleared,
bit 0 is in the state but outside the returned bits and survives. -/
theorem C5_wait_any_witness :
    (FlagSet.wait_any 43 14 true).2.testBit 1 = false ∧
    (FlagSet.wait_any 43 14 true).2.testBit 0 = Nat.testBit 43 0 := by
  have h1 := (C5_wait_any_clears_exactly_returned 43 14 1).2.1 (by decide)
  have h2 := (C5_wait_any_clears_exactly_returned 43 14 0).2.2 (by decide)
  exact ⟨h1, h2⟩

/-- C6: `try_send` returns false and leaves the channel unchanged exactly when
the occupied count equals the capacity; otherwise it appends the value at the
tail, keeps the capacity, and returns true. -/
theorem C6_try_send_full_or_append (ch : Channel) (v : Int) :
    (ch.occupied = ch.capacity →
      (ch.try_send v).1 = false ∧ (ch.try_send v).2 = ch) ∧
    (ch.occupied ≠ ch.capacity →
      (ch.try_send v).1 = true ∧
      (ch.try_send v).2.items = ch.items ++ [v] ∧
      (ch.try_send v).2.capacity = ch.capacity) := by
  constructor
  · intro h
    simp only [Channel.occupied] at h
    simp [Channel.try_send, h]
  · intro h
    simp only [Channel.occupied] at h
    simp [Channel.try_send, h]

/-- Witness for C6: a full capacity-1 channel rejects the send unchanged, and
a channel with spare room appends at the tail. -/
theorem C6_try_send_witness :
    ((Channel.mk 1 [5]).try_send 9).1 = false ∧
    ((Channel.mk 1 [5]).try_send 9).2 = Channel.mk 1 [5] ∧
    ((Channel.mk 2 [5]).try_send 9).2.items = [5, 9] := by
  have h1 := (C6_try_send_full_or_append (Channel.mk 1 [5]) 9).1 (by decide)
  have h2 := (C6_try_send_full_or_append (Channel.mk 2 [5]) 9).2 (by decide)
  exact ⟨h1.1, h1.2, h2.2.1⟩

end STRCP2

namespace STRCP2

/-- One `STR_CP2` consumer cycle from a counter in `[0, 19]` yields a counter
back in `[0, 19]`, never invokes the restart, and never sets
`BIT_TASK2_RESTART`, for every allocation outcome and channel contents. -/
theorem task2StepSTR_counter_bound (a : Bool) (t : Int) (fila : Channel)
    (h0 : 0 ≤ t) (h19 : t ≤ 19) :
    0 ≤ (task2StepSTR a t fila).timeout ∧
    (task2StepSTR a t fila).timeout ≤ 19 ∧
    (task2StepSTR a t fila).restart = false ∧
    (task2StepSTR a t fila).bits ≠ BIT_TASK2_RESTART := by
  cases a with
  | false =>
    simp only [task2StepSTR, if_pos rfl]
    refine ⟨h0, h19, rfl, by simp [BIT_TASK2_RESTART]⟩
  | true =>
    cases hfi : fila.items with
    | cons x xs =>
      simp [task2StepSTR, Channel.try_receive, hfi, BIT_TASK2_OK, BIT_TASK2_RESTART]
    | nil =>
      simp only [task2StepSTR, Channel.try_receive, hfi, Bool.true_eq_false,
        if_neg, reduceCtorEq, ite_false]
      split_ifs with h10 h20 h30
      · exact ⟨show (0 : Int) ≤ t + 1 by omega, show t + 1 ≤ 19 by omega, rfl,
          show BIT_TASK2_TIMEOUT ≠ BIT_TASK2_RESTART by decide⟩
      · exact ⟨le_refl 0, show (0 : Int) ≤ 19 by norm_num, rfl,
          show BIT_TASK2_RESET ≠ BIT_TASK2_RESTART by decide⟩
      · exact absurd h30 (by omega)
      · exact ⟨show (0 : Int) ≤ t + 1 by omega, show t + 1 ≤ 19 by omega, rfl,
          show (0 : Nat) ≠ BIT_TASK2_RESTART by decide⟩

/-- Along any `STR_CP2` consumer run started from a counter in `[0, 19]`,
every cycle's counter stays in `[0, 19]` and no cycle restarts or sets
`BIT_TASK2_RESTART`. -/
theorem task2RunSTR_counter_bound (inputs : List (Bool × Channel)) :
    ∀ t : Int, 0 ≤ t → t ≤ 19 →
    ∀ o ∈ task2RunSTR inputs t,
      0 ≤ o.timeout ∧ o.timeout ≤ 19 ∧ o.restart = false ∧
      o.bits ≠ BIT_TASK2_RESTART := by
  induction inputs with
  | nil =>
    intro t h0 h19 o ho
    simp [task2RunSTR] at ho
  | cons p rest ih =>
    intro t h0 h19 o ho
    obtain ⟨a, ch⟩ := p
    have hstep := task2StepSTR_counter_bound a t ch h0 h19
    simp only [task2RunSTR, hstep.2.2.1, Bool.false_eq_true, if_neg,
      not_false_eq_true, ite_false, List.mem_cons] at ho
    rcases ho with ho | ho
    · rw [ho]; exact hstep
    · exact ih _ hstep.1 hstep.2.1 o ho

/-- C8: in the `STR_CP2` variant (which zeroes the counter at threshold 20),
for every run from `miss_counter = 0` and every sequence of allocation and
channel outcomes, the counter stays within `[0, 20]` and the `timeout == 30`
branch is unreachable: no cycle invokes `esp_restart` or sets
`BIT_TASK2_RESTART`. -/
theorem C8_str_counter_bounded_no_restart (inputs : List (Bool × Channel))
    (o : Task2Out) (ho : o ∈ task2RunSTR inputs 0) :
    0 ≤ o.timeout ∧ o.timeout ≤ 20 ∧ o.restart = false ∧
    o.bits ≠ BIT_TASK2_RESTART := by
  have h := task2RunSTR_counter_bound inputs 0 (le_refl 0) (by norm_num) o ho
  exact ⟨h.1, by omega, h.2.2.1, h.2.2.2⟩

/-- Witness for C8 on a concrete one-cycle run with an empty channel. -/
theorem C8_str_counter_bounded_witness :
    (task2StepSTR true 0 (Channel.new 10)).timeout ≤ 20 ∧
    (task2StepSTR true 0 (Channel.new 10)).restart = false := by
  have h := C8_str_counter_bounded_no_restart [(true, Channel.new 10)]
    (task2StepSTR true 0 (Channel.new 10)) (by decide)
  exact ⟨h.2.1, h.2.2.1⟩

/-- At the same counter and the same cycle outcomes, the two variants' consumer
steps set the same event bits, produce the same channel, agree on whether the
channel was reset and whether the restart fired; and whenever the
`hello_world` step leaves the counter below 20 the counters also agree. -/
theorem task2Step_variants_agree (a : Bool) (t : Int) (fila : Channel) :
    (task2StepSTR a t fila).bits = (task2StepHello a t fila).bits ∧
    (task2StepSTR a t fila).channel = (task2StepHello a t fila).channel ∧
    (task2StepSTR a t fila).resetChannel = (task2StepHello a t fila).resetChannel ∧
    (task2StepSTR a t fila).restart = (task2StepHello a t fila).restart ∧
    ((task2StepHello a t fila).timeout < 20 →
      (task2StepSTR a t fila).timeout = (task2StepHello a t fila).timeout) := by
  cases a with
  | false => simp [task2StepSTR, task2StepHello]
  | true =>
    cases hfi : fila.items with
    | cons x xs => simp [task2StepSTR, task2StepHello, Channel.try_receive, hfi]
    | nil =>
      simp only [task2StepSTR, task2StepHello, Channel.try_receive, hfi,
        Bool.true_eq_false, reduceCtorEq, ite_false]
      split_ifs with h10 h20 h30 <;> refine ⟨rfl, rfl, rfl, rfl, fun hlt => ?_⟩
      · rfl
      · exact absurd (show t + 1 < 20 from hlt) (by omega)
      · exact absurd (show t + 1 < 20 from hlt) (by omega)
      · rfl

/-- Run-level agreement: if the `hello_world` counter never reaches 20 along a
run, both variants produce, cycle by cycle, the same event bits, channels,
channel resets and restart outcomes on the same outcome sequence. -/
theorem task2Run_variants_agree (inputs : List (Bool × Channel)) :
    ∀ t : Int,
    (∀ o ∈ task2RunHello inputs t, o.timeout < 20) →
    (task2RunSTR inputs t).map
        (fun o => (o.bits, o.channel, o.resetChannel, o.restart)) =
    (task2RunHello inputs t).map
        (fun o => (o.bits, o.channel, o.resetChannel, o.restart)) := by
  induction inputs with
  | nil => intro t _; rfl
  | cons p rest ih =>
    intro t h
    obtain ⟨a, ch⟩ := p
    have hag := task2Step_variants_agree a t ch
    have hmemH : task2StepHello a t ch ∈ task2RunHello ((a, ch) :: rest) t := by
      simp only [task2RunHello]
      split
      · simp
      · simp
    have hlt : (task2StepHello a t ch).timeout < 20 := h _ hmemH
    have ht : (task2StepSTR a t ch).timeout = (task2StepHello a t ch).timeout :=
      hag.2.2.2.2 hlt
    cases hr : (task2StepHello a t ch).restart with
    | true =>
      have hrS : (task2StepSTR a t ch).restart = true := by rw [hag.2.2.2.1, hr]
      simp only [task2RunSTR, task2RunHello, hr, hrS, ite_true,
        List.map_cons, List.map_nil]
      simp [hag.1, hag.2.1, hag.2.2.1]
    | false =>
      have hrS : (task2StepSTR a t ch).restart = false := by rw [hag.2.2.2.1, hr]
      simp only [task2RunSTR, task2RunHello, hr, hrS, Bool.false_eq_true,
        ite_false, List.map_cons]
      rw [hag.1, hag.2.1, hag.2.2.1, ht]
      congr 1
      apply ih
      intro o homem
      apply h
      simp only [task2RunHello, hr, Bool.false_eq_true, ite_false, List.mem_cons]
      exact Or.inr homem

/-- C9: for every sequence of allocation and channel outcomes along which the
`hello_world` consumer's miss counter never reaches 20, the two variants'
consumers emit identical event bits and perform identical channel operations
cycle by cycle; construction differs in capacity (10 versus 1), and at
threshold 20 only the `STR_CP2` variant zeroes the counter. -/
theorem C9_variants_equal_below_threshold (inputs : List (Bool × Channel))
    (h : ∀ o ∈ task2RunHello inputs 0, o.timeout < 20) :
    (task2RunSTR inputs 0).map
        (fun o => (o.bits, o.channel, o.resetChannel, o.restart)) =
      (task2RunHello inputs 0).map
        (fun o => (o.bits, o.channel, o.resetChannel, o.restart)) ∧
    filaSTR.capacity = 10 ∧ filaHello.capacity = 1 ∧
    (task2StepSTR true 19 (Channel.new 10)).timeout = 0 ∧
    (task2StepHello true 19 (Channel.new 1)).timeout = 20 := by
  exact ⟨task2Run_variants_agree inputs 0 h, rfl, rfl, by decide, by decide⟩

/-- Witness for C9 on a concrete two-cycle outcome sequence. -/
theorem C9_variants_equal_witness :
    (task2RunSTR [(true, Channel.new 10), (false, Channel.new 10)] 0).map
        (fun o => (o.bits, o.channel, o.resetChannel, o.restart)) =
    (task2RunHello [(true, Channel.new 10), (false, Channel.new 10)] 0).map
        (fun o => (o.bits, o.channel, o.resetChannel, o.restart)) := by
  exact (C9_variants_equal_below_threshold
    [(true, Channel.new 10), (false, Channel.new 10)] (by decide)).1

/-- For every polled bit value, `Task3` emits exactly one line per status flag
present in it and no line for a flag absent from it. -/
theorem task3Lines_spec (b : Nat) :
    (task3Lines b).count SupLine.task1_ok =
      (if b &&& BIT_TASK1_OK ≠ 0 then 1 else 0) ∧
    (task3Lines b).count SupLine.task1_fail =
      (if b &&& BIT_TASK1_FAIL ≠ 0 then 1 else 0) ∧
    (task3Lines b).count SupLine.task2_ok =
      (if b &&& BIT_TASK2_OK ≠ 0 then 1 else 0) ∧
    (task3Lines b).count SupLine.task2_timeout =
      (if b &&& BIT_TASK2_TIMEOUT ≠ 0 then 1 else 0) ∧
    (task3Lines b).count SupLine.task2_reset =
      (if b &&& BIT_TASK2_RESET ≠ 0 then 1 else 0) ∧
    (task3Lines b).count SupLine.task2_restart =
      (if b &&& BIT_TASK2_RESTART ≠ 0 then 1 else 0) := by
  simp only [task3Lines]
  split_ifs <;> decide

/-- C10: on every supervisor cycle, `Task3` emits exactly one status line per
flag present in the bits returned by its zero-timeout poll, and a poll that
returns no flags emits zero status lines. -/
theorem C10_supervisor_line_per_flag (flags : Nat) :
    ((task3Step flags).1.count SupLine.task1_ok =
      (if (FlagSet.wait_any flags supervisorMask true).1 &&& BIT_TASK1_OK ≠ 0
        then 1 else 0)) ∧
    ((task3Step flags).1.count SupLine.task1_fail =
      (if (FlagSet.wait_any flags supervisorMask true).1 &&& BIT_TASK1_FAIL ≠ 0
        then 1 else 0)) ∧
    ((task3Step flags).1.count SupLine.task2_ok =
      (if (FlagSet.wait_any flags supervisorMask true).1 &&& BIT_TASK2_OK ≠ 0
        then 1 else 0)) ∧
    ((task3Step flags).1.count SupLine.task2_timeout =
      (if (FlagSet.wait_any flags supervisorMask true).1 &&& BIT_TASK2_TIMEOUT ≠ 0
        then 1 else 0)) ∧
    ((task3Step flags).1.count SupLine.task2_reset =
      (if (FlagSet.wait_any flags supervisorMask true).1 &&& BIT_TASK2_RESET ≠ 0
        then 1 else 0)) ∧
    ((task3Step flags).1.count SupLine.task2_restart =
      (if (FlagSet.wait_any flags supervisorMask true).1 &&& BIT_TASK2_RESTART ≠ 0
        then 1 else 0)) ∧
    ((FlagSet.wait_any flags supervisorMask true).1 = 0 →
      (task3Step flags).1 = []) := by
  have hstep : (task3Step flags).1 =
      task3Lines ((FlagSet.wait_any flags supervisorMask true).1) := rfl
  have hspec := task3Lines_spec ((FlagSet.wait_any flags supervisorMask true).1)
  rw [hstep]
  refine ⟨hspec.1, hspec.2.1, hspec.2.2.1, hspec.2.2.2.1, hspec.2.2.2.2.1,
    hspec.2.2.2.2.2, fun h0 => ?_⟩
  rw [h0]
  rfl

/-- Witness for C10 at the empty flag state: the poll returns no flags and the
cycle emits zero lines. -/
theorem C10_supervisor_witness : (task3Step 0).1 = [] :=
  (C10_supervisor_line_per_flag 0).2.2.2.2.2.2 (by decide)

end STRCP2
